import Mathlib

/-!
Verification of the SEG14_PICOW hydraulic-press firmware.

The development shallowly embeds the relevant parts of the source:

* `src/test2.py` — the press controller: the `PressStateMachine` class,
  the input helpers `get_input_state` / `set_input_pull`, the relay
  helpers, the `/api/config` handler loop, and one iteration of the
  `system_task` loop (the per-tick transition function).  State is passed
  explicitly through a `World` record; externally visible side effects
  (relay writes, error-code writes, state changes, display notifications)
  are recorded in an ordered trace, and every `get_input_state` call made
  during a tick is recorded in a read log together with the value it
  returned.  Input levels are supplied by an oracle indexed by the number
  of reads performed so far, so that a pin may present different levels to
  successive reads within one tick, exactly as live hardware does.

* `src/boardio.py` — the edge-triggered pin abstraction: the
  `EdgeTriggerPin` constructor and `_poll_handler`, `PinGroup.add_pin`,
  `BoardIO.add_monitored_pin` and `BoardIO.process_pending_callbacks`.

Python `time.time()` / `utime.ticks_ms()` values are modelled as natural
numbers; a Python `KeyError` is modelled with `Option` / `Except`.
-/

/-! ## Controller data model (src/test2.py) -/

/-- Logical (active-sense) input levels of the press at one instant, as
returned by `get_input_state` for each named input of `input_config`. -/
structure Inputs where
  start_btn : Bool
  manual_up_btn : Bool
  manual_down_btn : Bool
  emergency_stop_btn : Bool
  press_top_sensor : Bool
  press_bottom_sensor : Bool
  door_open_sensor : Bool
deriving DecidableEq, Repr

/-- Look an input up by its `input_config` name (unknown names are never
used by the controller; they default to `false`). -/
def Inputs.get (i : Inputs) (name : String) : Bool :=
  if name = "start_btn" then i.start_btn
  else if name = "manual_up_btn" then i.manual_up_btn
  else if name = "manual_down_btn" then i.manual_down_btn
  else if name = "emergency_stop_btn" then i.emergency_stop_btn
  else if name = "press_top_sensor" then i.press_top_sensor
  else if name = "press_bottom_sensor" then i.press_bottom_sensor
  else if name = "door_open_sensor" then i.door_open_sensor
  else false

/-- The input levels presented by the hardware to the k-th
`get_input_state` call of an execution. -/
def Oracle : Type := Nat → Inputs

/-- The eight relay output levels (`RELAY_MOTOR` … `RELAY_RESERVE2`). -/
structure Relays where
  motor : Bool
  door : Bool
  r12mb1 : Bool
  r12mb2 : Bool
  r13mb1 : Bool
  r13mb2 : Bool
  reserve1 : Bool
  reserve2 : Bool
deriving DecidableEq, Repr

/-- All relays de-energized. -/
def Relays.allOff : Relays := ⟨false, false, false, false, false, false, false, false⟩

/-- Externally visible side effects of the controller, in program order:
relay writes, status-LED writes, error-code assignments, state changes and
the display notification issued by `set_state`. -/
inductive Ev where
  | relayWrite : String → Bool → Ev
  | ledWrite : Bool → Ev
  | setError : Option String → Ev
  | stateChange : String → Ev
  | displayNotify : String → Ev
deriving DecidableEq, Repr

/-- The `timers` dictionary of `PressStateMachine.__init__`; deadlines are
absolute `time.time()` values (0 = not armed). -/
structure Timers where
  motor_warmup : Nat
  fast_down : Nat
  slow_down_transition : Nat
  move_up_timeout : Nat
  full_press_timer : Nat
  cycle_timeout : Nat
deriving DecidableEq, Repr

/-- The `PressStateMachine` instance fields. The state is kept as a
string, as in the source, where `set_state` validates it against
`STATES`. -/
structure SM where
  state : String
  last_state : Option String
  cycle_count : Nat
  error_code : Option String
  timers : Timers
deriving DecidableEq, Repr

/-- `PressStateMachine.STATES`. -/
def STATES : List String :=
  ["INIT", "STARTUP_CHECK", "MOTOR_WARMUP", "IDLE",
   "WAIT_FOR_FILL", "FAST_DOWN", "SLOW_DOWN_HIGH_FORCE",
   "MOVE_UP", "PRESS_FULL", "MANUAL_UP", "MANUAL_DOWN", "ERROR"]

/-- `PressStateMachine.__init__`. -/
def mkSM : SM :=
  { state := "INIT", last_state := none, cycle_count := 0, error_code := none,
    timers := ⟨0, 0, 0, 0, 0, 0⟩ }

/-- `PressStateMachine.set_state`: a valid state name records the previous
state, installs the new one and notifies the display; an invalid name
changes nothing and emits no notification.  The second component is the
list of side effects produced by the call. -/
def SM.set_state (sm : SM) (new_state : String) : SM × List Ev :=
  if new_state ∈ STATES then
    ({ sm with last_state := some sm.state, state := new_state },
     [Ev.stateChange new_state, Ev.displayNotify new_state])
  else (sm, [])

/-- Full controller-visible state threaded through one `system_task`
iteration: machine state, relay levels, status LED, the side-effect trace,
the `get_input_state` read log and the read counter feeding the oracle. -/
structure World where
  sm : SM
  relays : Relays
  statusLed : Bool
  trace : List Ev
  reads : List (String × Bool)
  readIdx : Nat
deriving DecidableEq, Repr

/-! ### Primitive operations of the tick -/

/-- One `get_input_state(name)` call inside `system_task`: reads the
current level from the hardware oracle, logs it and advances the read
counter. -/
def readInput (o : Oracle) (name : String) (w : World) : World × Bool :=
  let v := (o w.readIdx).get name
  ({ w with readIdx := w.readIdx + 1, reads := w.reads ++ [(name, v)] }, v)

/-- `RELAY_MOTOR.value(v)`. -/
def relayMotor (v : Bool) (w : World) : World :=
  { w with relays := { w.relays with motor := v }, trace := w.trace ++ [Ev.relayWrite "RELAY_MOTOR" v] }

/-- `RELAY_DOOR.value(v)`. -/
def relayDoor (v : Bool) (w : World) : World :=
  { w with relays := { w.relays with door := v }, trace := w.trace ++ [Ev.relayWrite "RELAY_DOOR" v] }

/-- `RELAY_12MB1.value(v)`. -/
def relay12MB1 (v : Bool) (w : World) : World :=
  { w with relays := { w.relays with r12mb1 := v }, trace := w.trace ++ [Ev.relayWrite "RELAY_12MB1" v] }

/-- `RELAY_12MB2.value(v)`. -/
def relay12MB2 (v : Bool) (w : World) : World :=
  { w with relays := { w.relays with r12mb2 := v }, trace := w.trace ++ [Ev.relayWrite "RELAY_12MB2" v] }

/-- `RELAY_13MB1.value(v)`. -/
def relay13MB1 (v : Bool) (w : World) : World :=
  { w with relays := { w.relays with r13mb1 := v }, trace := w.trace ++ [Ev.relayWrite "RELAY_13MB1" v] }

/-- `RELAY_13MB2.value(v)`. -/
def relay13MB2 (v : Bool) (w : World) : World :=
  { w with relays := { w.relays with r13mb2 := v }, trace := w.trace ++ [Ev.relayWrite "RELAY_13MB2" v] }

/-- `RELAY_RESERVE1.value(v)`. -/
def relayReserve1 (v : Bool) (w : World) : World :=
  { w with relays := { w.relays with reserve1 := v }, trace := w.trace ++ [Ev.relayWrite "RELAY_RESERVE1" v] }

/-- `RELAY_RESERVE2.value(v)`. -/
def relayReserve2 (v : Bool) (w : World) : World :=
  { w with relays := { w.relays with reserve2 := v }, trace := w.trace ++ [Ev.relayWrite "RELAY_RESERVE2" v] }

/-- `STATUS_LED.value(v)`. -/
def statusLedW (v : Bool) (w : World) : World :=
  { w with statusLed := v, trace := w.trace ++ [Ev.ledWrite v] }

/-- `state_machine.error_code = c`. -/
def setErrorCode (c : Option String) (w : World) : World :=
  { w with sm := { w.sm with error_code := c }, trace := w.trace ++ [Ev.setError c] }

/-- `state_machine.set_state(s)` acting on the world, appending the side
effects it produces to the trace. -/
def setStateW (s : String) (w : World) : World :=
  let r := w.sm.set_state s
  { w with sm := r.1, trace := w.trace ++ r.2 }

/-- `state_machine.cycle_count += 1`. -/
def incCycle (w : World) : World :=
  { w with sm := { w.sm with cycle_count := w.sm.cycle_count + 1 } }

/-- Timer-dictionary assignment helpers. -/
def setTimerMotorWarmup (t : Nat) (w : World) : World :=
  { w with sm := { w.sm with timers := { w.sm.timers with motor_warmup := t } } }

def setTimerFastDown (t : Nat) (w : World) : World :=
  { w with sm := { w.sm with timers := { w.sm.timers with fast_down := t } } }

def setTimerSlowDownTransition (t : Nat) (w : World) : World :=
  { w with sm := { w.sm with timers := { w.sm.timers with slow_down_transition := t } } }

def setTimerMoveUpTimeout (t : Nat) (w : World) : World :=
  { w with sm := { w.sm with timers := { w.sm.timers with move_up_timeout := t } } }

def setTimerFullPress (t : Nat) (w : World) : World :=
  { w with sm := { w.sm with timers := { w.sm.timers with full_press_timer := t } } }

def setTimerCycleTimeout (t : Nat) (w : World) : World :=
  { w with sm := { w.sm with timers := { w.sm.timers with cycle_timeout := t } } }

/-- `stop_all_relays()`: de-energizes the eight relays in source order. -/
def stop_all_relays (w : World) : World :=
  relayReserve2 false (relayReserve1 false (relay13MB2 false (relay13MB1 false
    (relay12MB2 false (relay12MB1 false (relayDoor false (relayMotor false w)))))))

/-- The trace suffix appended by `stop_all_relays()`. -/
def stopAllEvents : List Ev :=
  [Ev.relayWrite "RELAY_MOTOR" false, Ev.relayWrite "RELAY_DOOR" false,
   Ev.relayWrite "RELAY_12MB1" false, Ev.relayWrite "RELAY_12MB2" false,
   Ev.relayWrite "RELAY_13MB1" false, Ev.relayWrite "RELAY_13MB2" false,
   Ev.relayWrite "RELAY_RESERVE1" false, Ev.relayWrite "RELAY_RESERVE2" false]

/-- `move_fast_down()`. -/
def move_fast_down (w : World) : World :=
  relay13MB2 false (relay13MB1 false (relay12MB2 false (relay12MB1 true w)))

/-- `move_up()`. -/
def move_up (w : World) : World :=
  relay13MB2 true (relay13MB1 false (relay12MB2 true (relay12MB1 false w)))

/-! ### The per-tick transition function (`system_task`, one loop iteration)

Each `branch…` definition is the body of the corresponding
`elif current_state == '…'` arm, with Python short-circuit evaluation of
`and` made explicit: the right operand of an `and` is only read when the
left operand is true. -/

/-- `INIT` arm. -/
def branchInit (w : World) : World :=
  setStateW "STARTUP_CHECK" (statusLedW true (stop_all_relays w))

/-- `STARTUP_CHECK` arm: both sensors are read unconditionally. -/
def branchStartupCheck (o : Oracle) (w : World) : World :=
  let r1 := readInput o "door_open_sensor" w
  let r2 := readInput o "emergency_stop_btn" r1.1
  if r1.2 || r2.2 then setStateW "ERROR" r2.1 else setStateW "IDLE" r2.1

/-- `IDLE` arm. -/
def branchIdle (o : Oracle) (now : Nat) (w : World) : World :=
  let r1 := readInput o "start_btn" w
  let c1 :=
    if r1.2 then
      let r2 := readInput o "emergency_stop_btn" r1.1
      (r2.1, !r2.2)
    else (r1.1, false)
  let w1 :=
    if c1.2 then
      setStateW "MOTOR_WARMUP" (setTimerMotorWarmup (now + 5) (relayMotor true c1.1))
    else c1.1
  let r3 := readInput o "manual_up_btn" w1
  if r3.2 then setStateW "MANUAL_UP" r3.1
  else
    let r4 := readInput o "manual_down_btn" r3.1
    if r4.2 then setStateW "MANUAL_DOWN" r4.1 else r4.1

/-- `MOTOR_WARMUP` arm. -/
def branchMotorWarmup (now : Nat) (w : World) : World :=
  if now ≥ w.sm.timers.motor_warmup then
    setStateW "MOVE_UP" (setTimerMoveUpTimeout (now + 15) (move_up w))
  else w

/-- `MOVE_UP` arm. -/
def branchMoveUp (o : Oracle) (now : Nat) (w : World) : World :=
  let r1 := readInput o "press_top_sensor" w
  if r1.2 then setStateW "WAIT_FOR_FILL" r1.1
  else if now ≥ r1.1.sm.timers.move_up_timeout then
    setStateW "ERROR" (setErrorCode (some "MOVE_UP_TIMEOUT") r1.1)
  else r1.1

/-- `WAIT_FOR_FILL` arm. -/
def branchWaitForFill (o : Oracle) (now : Nat) (w : World) : World :=
  let r1 := readInput o "door_open_sensor" w
  let c :=
    if !r1.2 then readInput o "start_btn" r1.1
    else (r1.1, false)
  if c.2 then
    setStateW "FAST_DOWN"
      (setTimerFastDown (now + 15) (move_fast_down (setTimerCycleTimeout (now + 60) c.1)))
  else c.1

/-- `FAST_DOWN` arm. -/
def branchFastDown (o : Oracle) (now : Nat) (w : World) : World :=
  let r1 := readInput o "press_bottom_sensor" w
  if r1.2 then
    setStateW "SLOW_DOWN_HIGH_FORCE" (setTimerSlowDownTransition (now + 2) (relay12MB1 false r1.1))
  else if now ≥ r1.1.sm.timers.fast_down then
    setStateW "SLOW_DOWN_HIGH_FORCE" (setTimerSlowDownTransition (now + 2) (relay12MB1 false r1.1))
  else r1.1

/-- `SLOW_DOWN_HIGH_FORCE` arm. -/
def branchSlowDown (o : Oracle) (now : Nat) (w : World) : World :=
  let w1 :=
    if now ≥ w.sm.timers.slow_down_transition then
      relay12MB1 true (setTimerSlowDownTransition (now + 1) (relay13MB1 true w))
    else w
  let r1 := readInput o "press_bottom_sensor" w1
  let w2 :=
    if r1.2 then
      if r1.1.sm.timers.full_press_timer = 0 then setTimerFullPress now r1.1
      else if now - r1.1.sm.timers.full_press_timer > 10 then setStateW "PRESS_FULL" r1.1
      else r1.1
    else setTimerFullPress 0 r1.1
  if now ≥ w2.sm.timers.cycle_timeout then
    setStateW "ERROR" (setErrorCode (some "CYCLE_TIMEOUT") w2)
  else w2

/-- `PRESS_FULL` arm. -/
def branchPressFull (w : World) : World :=
  setStateW "IDLE" (incCycle (relayDoor true (stop_all_relays w)))

/-- `MANUAL_UP` arm. -/
def branchManualUp (o : Oracle) (w : World) : World :=
  let r1 := readInput o "manual_up_btn" w
  let c :=
    if r1.2 then
      let r2 := readInput o "emergency_stop_btn" r1.1
      (r2.1, !r2.2)
    else (r1.1, false)
  if c.2 then move_up (relayMotor true c.1)
  else setStateW "IDLE" (stop_all_relays c.1)

/-- `MANUAL_DOWN` arm. -/
def branchManualDown (o : Oracle) (w : World) : World :=
  let r1 := readInput o "manual_down_btn" w
  let c :=
    if r1.2 then
      let r2 := readInput o "emergency_stop_btn" r1.1
      (r2.1, !r2.2)
    else (r1.1, false)
  if c.2 then move_fast_down (relayMotor true c.1)
  else setStateW "IDLE" (stop_all_relays c.1)

/-- `ERROR` arm. -/
def branchError (o : Oracle) (w : World) : World :=
  let w1 := statusLedW false (stop_all_relays w)
  let r1 := readInput o "emergency_stop_btn" w1
  let c :=
    if !r1.2 then
      let r2 := readInput o "door_open_sensor" r1.1
      (r2.1, !r2.2)
    else (r1.1, false)
  if c.2 then setStateW "IDLE" (setErrorCode none c.1) else c.1

/-- The `if current_state == … / elif …` dispatch of `system_task`. -/
def stateBranch (o : Oracle) (now : Nat) (w : World) : World :=
  if w.sm.state = "INIT" then branchInit w
  else if w.sm.state = "STARTUP_CHECK" then branchStartupCheck o w
  else if w.sm.state = "IDLE" then branchIdle o now w
  else if w.sm.state = "MOTOR_WARMUP" then branchMotorWarmup now w
  else if w.sm.state = "MOVE_UP" then branchMoveUp o now w
  else if w.sm.state = "WAIT_FOR_FILL" then branchWaitForFill o now w
  else if w.sm.state = "FAST_DOWN" then branchFastDown o now w
  else if w.sm.state = "SLOW_DOWN_HIGH_FORCE" then branchSlowDown o now w
  else if w.sm.state = "PRESS_FULL" then branchPressFull w
  else if w.sm.state = "MANUAL_UP" then branchManualUp o w
  else if w.sm.state = "MANUAL_DOWN" then branchManualDown o w
  else if w.sm.state = "ERROR" then branchError o w
  else w

/-- The "Check emergency stop at all times" block after the dispatch. -/
def estopGlobalCheck (o : Oracle) (w : World) : World :=
  let r := readInput o "emergency_stop_btn" w
  if r.2 then setStateW "ERROR" (stop_all_relays r.1) else r.1

/-- States exempt from the door interlock
(`current_state not in [...]`). -/
def doorExemptStates : List String :=
  ["INIT", "STARTUP_CHECK", "IDLE", "MANUAL_UP", "MANUAL_DOWN", "ERROR"]

/-- The door-open interlock block; `cs` is the `current_state` captured at
the top of the loop iteration.  The sensor is only read when `cs` is not
exempt (Python `and` short-circuit). -/
def doorGlobalCheck (o : Oracle) (cs : String) (w : World) : World :=
  if cs ∈ doorExemptStates then w
  else
    let r := readInput o "door_open_sensor" w
    if r.2 then setStateW "ERROR" (stop_all_relays r.1) else r.1

/-- One iteration of the `system_task` loop (one controller tick), without
the trailing sleep.  `now` is the `time.time()` value of this tick. -/
def systemTick (o : Oracle) (now : Nat) (w : World) : World :=
  let cs := w.sm.state
  doorGlobalCheck o cs (estopGlobalCheck o (stateBranch o now w))

/-- The `except Exception` arm of `system_task` (lines 660–663 of
`src/test2.py`): on a caught fault the error code is set and the state is
forced to `ERROR`; no relay is written. -/
def exceptionPath (w : World) : World :=
  setStateW "ERROR" (setErrorCode (some "SYSTEM_ERROR") w)

/-! ## Input helpers over `input_config` (src/test2.py lines 360–380) -/

/-- One `input_config` entry: the hardware pin number, the configured pull
polarity string, and the raw electrical level the pin currently reads. -/
structure InputEntry where
  pinId : Nat
  pull : String
  raw : Nat
deriving DecidableEq, Repr

/-- Dictionary lookup `input_config[name]` (first match; `none` models the
`KeyError`). -/
def lookupCfg : List (String × InputEntry) → String → Option InputEntry
  | [], _ => none
  | (k, e) :: rest, name => if k = name then some e else lookupCfg rest name

/-- Membership test `input_name in input_config`. -/
def containsName (cfg : List (String × InputEntry)) (name : String) : Bool :=
  (lookupCfg cfg name).isSome

/-- Dictionary slot assignment `input_config[name] = e` (keys of a Python
dict are unique, so the first — only — occurrence is replaced). -/
def updateCfg : List (String × InputEntry) → String → InputEntry →
    List (String × InputEntry)
  | [], _, _ => []
  | (k, v) :: rest, name, e =>
    if k = name then (k, e) :: rest else (k, v) :: updateCfg rest name e

/-- `get_input_state(input_name)`: `none` models the `KeyError` raised for
a name that is not a key of `input_config`; otherwise the active boolean:
raw level 0 under pull-up, raw level 1 otherwise. -/
def get_input_state (cfg : List (String × InputEntry)) (name : String) : Option Bool :=
  match lookupCfg cfg name with
  | none => none
  | some e => some (if e.pull = "up" then e.raw == 0 else e.raw == 1)

/-- `set_input_pull(input_name, pull_type)`: an unrecognized polarity
returns `False` before touching anything; otherwise the pin is re-created
on the same pin number with the requested pull and the entry's pull string
is updated (`.error` models the `KeyError` raised when the name is absent
and the polarity was valid). -/
def set_input_pull (cfg : List (String × InputEntry)) (input_name pull_type : String) :
    Except Unit (List (String × InputEntry) × Bool) :=
  if pull_type ∉ ["up", "down"] then Except.ok (cfg, false)
  else
    match lookupCfg cfg input_name with
    | none => Except.error ()
    | some e => Except.ok (updateCfg cfg input_name { e with pull := pull_type }, true)

/-- The update loop of `config_handler` (src/test2.py lines 491–495):
known names go through `set_input_pull`, which clears the success flag on
failure; unknown names are skipped.  `.error` models an exception escaping
to the `except` arm. -/
def applyConfigItems : List (String × InputEntry) → Bool → List (String × String) →
    Except Unit (List (String × InputEntry) × Bool)
  | cfg, success, [] => Except.ok (cfg, success)
  | cfg, success, (n, p) :: rest =>
    if containsName cfg n then
      match set_input_pull cfg n p with
      | Except.ok (cfg', ok) => applyConfigItems cfg' (success && ok) rest
      | Except.error e => Except.error e
    else applyConfigItems cfg success rest

/-- `config_handler` outcome: the final configuration and the HTTP status
code it writes (200 on success, 400 when the flag was cleared, 500 when an
exception reached the `except` arm). -/
def config_handler_response (cfg : List (String × InputEntry))
    (items : List (String × String)) : List (String × InputEntry) × Nat :=
  match applyConfigItems cfg true items with
  | Except.ok (cfg', true) => (cfg', 200)
  | Except.ok (cfg', false) => (cfg', 400)
  | Except.error _ => (cfg, 500)

/-! ## Edge-triggered pins (src/boardio.py) -/

/-- The mutable fields of an `EdgeTriggerPin` relevant to edge detection,
plus `value`: the logical (post-inversion) level the hardware presents to
`self.value()` at the moment of the current poll or drain.  Callbacks are
identified by numeric tokens. -/
structure EPinState where
  value : Bool
  last_value : Bool
  debounce_ms : Nat
  last_trigger_time : Nat
  latched : Option Bool
  callbacks_rising : List Nat
  callbacks_falling : List Nat
deriving DecidableEq, Repr

/-- `EdgeTriggerPin._poll_handler` at time `current_time`
(`utime.ticks_ms()`): returns the updated pin together with the list of
callbacks invoked, in order. -/
def poll_handler (p : EPinState) (current_time : Nat) : EPinState × List Nat :=
  let current_value := p.value
  if current_value ≠ p.last_value then
    if p.debounce_ms = 0 || current_time - p.last_trigger_time ≥ p.debounce_ms then
      let fired := if current_value then p.callbacks_rising else p.callbacks_falling
      ({ p with last_trigger_time := current_time, last_value := current_value }, fired)
    else (p, [])
  else (p, [])

/-- The per-pin body of `BoardIO.process_pending_callbacks`: if the latch
is non-empty it is cleared, the current value re-read, and the edge is
dispatched only when the re-read value still equals the latched one,
differs from the last accepted value, and passes the debounce check
against the time of this drain. -/
def processPin (now : Nat) (p : EPinState) : EPinState × List Nat :=
  match p.latched with
  | none => (p, [])
  | some latched =>
    let p1 := { p with latched := none }
    let current_value := p1.value
    if current_value = latched ∧ current_value ≠ p1.last_value then
      if p1.debounce_ms = 0 || now - p1.last_trigger_time ≥ p1.debounce_ms then
        let fired := if current_value then p1.callbacks_rising else p1.callbacks_falling
        ({ p1 with last_trigger_time := now, last_value := current_value }, fired)
      else (p1, [])
    else (p1, [])

/-- Fold of `processPin` over the drained pin list; the pin store maps pin
identities to pin states, and the log pairs each fired callback with the
pin it belongs to. -/
def drainPins (now : Nat) : List Nat → (Nat → EPinState) → (Nat → EPinState) × List (Nat × Nat)
  | [], store => (store, [])
  | i :: rest, store =>
    let r := processPin now (store i)
    let store' : Nat → EPinState := fun j => if j = i then r.1 else store j
    let rec' := drainPins now rest store'
    (rec'.1, r.2.map (fun c => (i, c)) ++ rec'.2)

/-- `BoardIO.process_pending_callbacks` at drain time `now`: takes the
pending set (`list(set)` — duplicates collapse), clears it, and processes
each pending pin once.  Returns the updated store, the emptied pending
set, and the dispatch log. -/
def process_pending_callbacks (now : Nat) (store : Nat → EPinState) (pending : List Nat) :
    (Nat → EPinState) × List Nat × List (Nat × Nat) :=
  let r := drainPins now pending.dedup store
  (r.1, [], r.2)

/-! ## Pin registry (src/boardio.py: `PinGroup`, `BoardIO`) -/

/-- Construction-time identity of a pin as seen by the registry: `use_irq`
is fixed at construction and `irq_installed` records whether the
constructor installed a hardware interrupt handler. -/
structure PinCfg where
  id : Nat
  isEdgeTrigger : Bool
  use_irq : Bool
  irq_installed : Bool
deriving DecidableEq, Repr

/-- `EdgeTriggerPin.__init__`: the IRQ handler is installed exactly when
`use_irq` was requested. -/
def mkEdgeTriggerPin (i : Nat) (useIrq : Bool) : PinCfg :=
  { id := i, isEdgeTrigger := true, use_irq := useIrq, irq_installed := useIrq }

/-- A plain `ButtonPin` (or `machine.Pin`): not edge-triggered, no IRQ. -/
def mkButtonPin (i : Nat) : PinCfg :=
  { id := i, isEdgeTrigger := false, use_irq := false, irq_installed := false }

/-- `BoardIO.add_monitored_pin`: appends only when the pin is not already
present and does not use interrupts. -/
def add_monitored_pin (ms : List PinCfg) (p : PinCfg) : List PinCfg :=
  if p ∉ ms ∧ p.use_irq = false then ms ++ [p] else ms

/-- Registry state touched by pin registration: the named groups and the
polled-pin list. -/
structure Registry where
  groups : List (String × PinCfg)
  monitored : List PinCfg
deriving DecidableEq, Repr

/-- `BoardIO.__init__` (as far as registration state is concerned). -/
def emptyRegistry : Registry := { groups := [], monitored := [] }

/-- `PinGroup.add_pin`: stores the pin under its name and registers it for
polling exactly when it is an `EdgeTriggerPin` not using interrupts. -/
def add_pin (r : Registry) (name : String) (p : PinCfg) : Registry :=
  { groups := r.groups ++ [(name, p)],
    monitored := if p.isEdgeTrigger && !p.use_irq then add_monitored_pin r.monitored p else r.monitored }

/-- A registration call against the registry: either `PinGroup.add_pin` or
a direct `BoardIO.add_monitored_pin`. -/
inductive RegOp where
  | viaAddPin : String → PinCfg → RegOp
  | viaAddMonitored : PinCfg → RegOp
deriving DecidableEq, Repr

/-- Apply one registration call. -/
def applyRegOp (r : Registry) : RegOp → Registry
  | RegOp.viaAddPin name p => add_pin r name p
  | RegOp.viaAddMonitored p => { r with monitored := add_monitored_pin r.monitored p }

/-- Apply a whole registration history from a fresh registry. -/
def runRegOps (ops : List RegOp) : Registry :=
  ops.foldl applyRegOp emptyRegistry

/-! ## Projection lemmas for the tick primitives -/

@[simp] lemma reads_relayMotor (v : Bool) (w : World) : (relayMotor v w).reads = w.reads := rfl
@[simp] lemma reads_relayDoor (v : Bool) (w : World) : (relayDoor v w).reads = w.reads := rfl
@[simp] lemma reads_relay12MB1 (v : Bool) (w : World) : (relay12MB1 v w).reads = w.reads := rfl
@[simp] lemma reads_relay12MB2 (v : Bool) (w : World) : (relay12MB2 v w).reads = w.reads := rfl
@[simp] lemma reads_relay13MB1 (v : Bool) (w : World) : (relay13MB1 v w).reads = w.reads := rfl
@[simp] lemma reads_relay13MB2 (v : Bool) (w : World) : (relay13MB2 v w).reads = w.reads := rfl
@[simp] lemma reads_relayReserve1 (v : Bool) (w : World) : (relayReserve1 v w).reads = w.reads := rfl
@[simp] lemma reads_relayReserve2 (v : Bool) (w : World) : (relayReserve2 v w).reads = w.reads := rfl
@[simp] lemma reads_statusLedW (v : Bool) (w : World) : (statusLedW v w).reads = w.reads := rfl
@[simp] lemma reads_setErrorCode (c : Option String) (w : World) : (setErrorCode c w).reads = w.reads := rfl
@[simp] lemma reads_setStateW (s : String) (w : World) : (setStateW s w).reads = w.reads := rfl
@[simp] lemma reads_incCycle (w : World) : (incCycle w).reads = w.reads := rfl
@[simp] lemma reads_setTimerMotorWarmup (t : Nat) (w : World) : (setTimerMotorWarmup t w).reads = w.reads := rfl
@[simp] lemma reads_setTimerFastDown (t : Nat) (w : World) : (setTimerFastDown t w).reads = w.reads := rfl
@[simp] lemma reads_setTimerSlowDownTransition (t : Nat) (w : World) : (setTimerSlowDownTransition t w).reads = w.reads := rfl
@[simp] lemma reads_setTimerMoveUpTimeout (t : Nat) (w : World) : (setTimerMoveUpTimeout t w).reads = w.reads := rfl
@[simp] lemma reads_setTimerFullPress (t : Nat) (w : World) : (setTimerFullPress t w).reads = w.reads := rfl
@[simp] lemma reads_setTimerCycleTimeout (t : Nat) (w : World) : (setTimerCycleTimeout t w).reads = w.reads := rfl
@[simp] lemma reads_stop_all_relays (w : World) : (stop_all_relays w).reads = w.reads := rfl
@[simp] lemma reads_move_up (w : World) : (move_up w).reads = w.reads := rfl
@[simp] lemma reads_move_fast_down (w : World) : (move_fast_down w).reads = w.reads := rfl
@[simp] lemma reads_readInput (o : Oracle) (n : String) (w : World) :
    (readInput o n w).1.reads = w.reads ++ [(n, (o w.readIdx).get n)] := rfl

@[simp] lemma relays_statusLedW (v : Bool) (w : World) : (statusLedW v w).relays = w.relays := rfl
@[simp] lemma relays_setErrorCode (c : Option String) (w : World) : (setErrorCode c w).relays = w.relays := rfl
@[simp] lemma relays_setStateW (s : String) (w : World) : (setStateW s w).relays = w.relays := rfl
@[simp] lemma relays_incCycle (w : World) : (incCycle w).relays = w.relays := rfl
@[simp] lemma relays_setTimerFullPress (t : Nat) (w : World) : (setTimerFullPress t w).relays = w.relays := rfl
@[simp] lemma relays_setTimerSlowDownTransition (t : Nat) (w : World) : (setTimerSlowDownTransition t w).relays = w.relays := rfl
@[simp] lemma relays_setTimerCycleTimeout (t : Nat) (w : World) : (setTimerCycleTimeout t w).relays = w.relays := rfl
@[simp] lemma relays_readInput (o : Oracle) (n : String) (w : World) :
    (readInput o n w).1.relays = w.relays := rfl
@[simp] lemma relays_stop_all_relays (w : World) : (stop_all_relays w).relays = Relays.allOff := by
  cases w with
  | mk sm relays led trace reads idx =>
    cases relays
    rfl

@[simp] lemma sm_readInput (o : Oracle) (n : String) (w : World) : (readInput o n w).1.sm = w.sm := rfl
@[simp] lemma sm_stop_all_relays (w : World) : (stop_all_relays w).sm = w.sm := rfl
@[simp] lemma sm_statusLedW (v : Bool) (w : World) : (statusLedW v w).sm = w.sm := rfl
@[simp] lemma smState_setErrorCode (c : Option String) (w : World) :
    (setErrorCode c w).sm.state = w.sm.state := rfl

@[simp] lemma trace_readInput (o : Oracle) (n : String) (w : World) :
    (readInput o n w).1.trace = w.trace := rfl
@[simp] lemma trace_setErrorCode (c : Option String) (w : World) :
    (setErrorCode c w).trace = w.trace ++ [Ev.setError c] := rfl
@[simp] lemma trace_stop_all_relays (w : World) :
    (stop_all_relays w).trace = w.trace ++ stopAllEvents := by
  simp [stop_all_relays, relayMotor, relayDoor, relay12MB1, relay12MB2, relay13MB1,
    relay13MB2, relayReserve1, relayReserve2, stopAllEvents]

/-- The value returned by a read is the oracle's level for that name. -/
@[simp] lemma snd_readInput (o : Oracle) (n : String) (w : World) :
    (readInput o n w).2 = (o w.readIdx).get n := rfl

lemma smState_setStateW_valid (s : String) (w : World) (h : s ∈ STATES) :
    (setStateW s w).sm.state = s := by
  simp [setStateW, SM.set_state, h]

lemma trace_setStateW_valid (s : String) (w : World) (h : s ∈ STATES) :
    (setStateW s w).trace = w.trace ++ [Ev.stateChange s, Ev.displayNotify s] := by
  simp [setStateW, SM.set_state, h]

@[simp] lemma smState_setStateW_error (w : World) :
    (setStateW "ERROR" w).sm.state = "ERROR" :=
  smState_setStateW_valid _ _ (by decide)

@[simp] lemma trace_setStateW_error (w : World) :
    (setStateW "ERROR" w).trace = w.trace ++ [Ev.stateChange "ERROR", Ev.displayNotify "ERROR"] :=
  trace_setStateW_valid _ _ (by decide)

@[simp] lemma Inputs.get_estop (i : Inputs) :
    i.get "emergency_stop_btn" = i.emergency_stop_btn := rfl

@[simp] lemma Inputs.get_door (i : Inputs) :
    i.get "door_open_sensor" = i.door_open_sensor := rfl

/-- A true emergency-stop read at the global check de-energizes all relays
and forces `ERROR`, appending the relay-off writes to the trace strictly
before the state change and display notification. -/
lemma estopGlobalCheck_true (o : Oracle) (w : World)
    (h : (o w.readIdx).get "emergency_stop_btn" = true) :
    (estopGlobalCheck o w).trace =
        w.trace ++ stopAllEvents ++ [Ev.stateChange "ERROR", Ev.displayNotify "ERROR"] ∧
    (estopGlobalCheck o w).relays = Relays.allOff ∧
    (estopGlobalCheck o w).sm.state = "ERROR" := by
  simp [estopGlobalCheck, h]

/-- The global checks cannot undo a fail-safe outcome: once all relays are
off and the state is `ERROR`, the emergency-stop check keeps both. -/
lemma estopGlobalCheck_preserves (o : Oracle) (w : World)
    (h1 : w.relays = Relays.allOff) (h2 : w.sm.state = "ERROR") :
    (estopGlobalCheck o w).relays = Relays.allOff ∧
    (estopGlobalCheck o w).sm.state = "ERROR" := by
  unfold estopGlobalCheck
  by_cases h : (o w.readIdx).get "emergency_stop_btn" = true
  · simp [h]
  · simp only [Bool.not_eq_true] at h
    simp [h, h1, h2]

/-- A true door read at the global interlock (non-exempt state)
de-energizes all relays and forces `ERROR` with the relay-off writes
strictly before the state change. -/
lemma doorGlobalCheck_true (o : Oracle) (cs : String) (w : World)
    (hcs : cs ∉ doorExemptStates)
    (h : (o w.readIdx).get "door_open_sensor" = true) :
    (doorGlobalCheck o cs w).trace =
        w.trace ++ stopAllEvents ++ [Ev.stateChange "ERROR", Ev.displayNotify "ERROR"] ∧
    (doorGlobalCheck o cs w).relays = Relays.allOff ∧
    (doorGlobalCheck o cs w).sm.state = "ERROR" := by
  simp [doorGlobalCheck, hcs, h]

/-- The door interlock also keeps an established fail-safe outcome. -/
lemma doorGlobalCheck_preserves (o : Oracle) (cs : String) (w : World)
    (h1 : w.relays = Relays.allOff) (h2 : w.sm.state = "ERROR") :
    (doorGlobalCheck o cs w).relays = Relays.allOff ∧
    (doorGlobalCheck o cs w).sm.state = "ERROR" := by
  unfold doorGlobalCheck
  by_cases hcs : cs ∈ doorExemptStates
  · simp [hcs, h1, h2]
  · by_cases h : (o w.readIdx).get "door_open_sensor" = true
    · simp [hcs, h]
    · simp only [Bool.not_eq_true] at h
      simp [hcs, h, h1, h2]

/-- C2. For every process state and every tick: if the emergency-stop
input is active throughout the tick, then at the end of the tick the state
is `ERROR` and every relay output is de-energized, regardless of the other
inputs and of what the state-specific logic did earlier in the tick. -/
theorem estop_forces_error (o : Oracle) (now : Nat) (w : World)
    (h : ∀ k, (o k).emergency_stop_btn = true) :
    (systemTick o now w).sm.state = "ERROR" ∧
    (systemTick o now w).relays = Relays.allOff := by
  unfold systemTick
  have hes := estopGlobalCheck_true o (stateBranch o now w) (by simp [h])
  have hd := doorGlobalCheck_preserves o w.sm.state
    (estopGlobalCheck o (stateBranch o now w)) hes.2.1 hes.2.2
  exact ⟨hd.2, hd.1⟩

/-! ## Concrete inputs and worlds used as counterexamples and witnesses -/

/-- All inputs inactive. -/
def inpNone : Inputs := ⟨false, false, false, false, false, false, false⟩

/-- Only the emergency stop active. -/
def inpES : Inputs := ⟨false, false, false, true, false, false, false⟩

/-- Only the manual-up button active. -/
def inpMU : Inputs := ⟨false, true, false, false, false, false, false⟩

/-- Manual-up and emergency stop both active. -/
def inpMUES : Inputs := ⟨false, true, false, true, false, false, false⟩

/-- A world in `MOVE_UP`: motor and the two move-up valves energized, the
`move_up_timeout` deadline already armed at 50. -/
def wMoveUp : World :=
  { sm := { state := "MOVE_UP", last_state := some "MOTOR_WARMUP", cycle_count := 0,
            error_code := none, timers := ⟨0, 0, 0, 50, 0, 0⟩ },
    relays := ⟨true, false, false, true, false, true, false, false⟩,
    statusLed := true, trace := [], reads := [], readIdx := 0 }

/-- A world in `MANUAL_UP` with motor and move-up valves energized. -/
def wManual : World :=
  { sm := { state := "MANUAL_UP", last_state := some "IDLE", cycle_count := 0,
            error_code := none, timers := ⟨0, 0, 0, 0, 0, 0⟩ },
    relays := ⟨true, false, false, true, false, true, false, false⟩,
    statusLed := true, trace := [], reads := [], readIdx := 0 }

/-- A world already in `ERROR` but with relays still energized. -/
def wError : World :=
  { sm := { state := "ERROR", last_state := some "MOVE_UP", cycle_count := 0,
            error_code := some "MOVE_UP_TIMEOUT", timers := ⟨0, 0, 0, 50, 0, 0⟩ },
    relays := ⟨true, false, false, true, false, true, false, false⟩,
    statusLed := true, trace := [], reads := [], readIdx := 0 }

/-- Oracle whose second read (index 1) sees the emergency stop pressed and
whose other reads see it released, manual-up held throughout. -/
def oFlicker : Oracle := fun k => if k = 1 then inpMUES else inpMU

/-! ## C1: fail-safe ordering on transitions into ERROR -/

/-- The `ERROR` arm begins with `stop_all_relays()`, so a tick that starts
in `ERROR` always ends with every relay de-energized. -/
lemma branchError_relays (o : Oracle) (w : World) :
    (branchError o w).relays = Relays.allOff := by
  unfold branchError
  by_cases h1 : (o (statusLedW false (stop_all_relays w)).readIdx).get "emergency_stop_btn" = true
  · simp [h1]
  · simp only [Bool.not_eq_true] at h1
    by_cases h2 : (o (readInput o "emergency_stop_btn"
        (statusLedW false (stop_all_relays w))).1.readIdx).get "door_open_sensor" = true
    · simp [h1, h2]
    · simp only [Bool.not_eq_true] at h2
      simp [h1, h2]

/-- Dispatch reaches the `ERROR` arm exactly when the state is `ERROR`. -/
lemma stateBranch_error (o : Oracle) (now : Nat) (w : World) (h : w.sm.state = "ERROR") :
    stateBranch o now w = branchError o w := by
  simp [stateBranch, h]

/-- C1 (corrected): the transition-into-`ERROR` paths that do de-energize
relays first are exactly the two global interlocks.  (1) A true
emergency-stop read at the global check appends the eight relay-off writes
to the trace strictly before the state-change and display events; (2) so
does a true door read in a non-exempt state; (3) the caught-fault path
(`except` arm) sets the error code and changes state with no relay write
at all; (4) every tick that starts in `ERROR` ends with all relays
de-energized, which is how the timeout-caused entries into `ERROR` are
eventually made safe — one tick later. -/
theorem error_transition_relay_ordering :
    (∀ (o : Oracle) (w : World), (o w.readIdx).get "emergency_stop_btn" = true →
      (estopGlobalCheck o w).trace =
        w.trace ++ stopAllEvents ++ [Ev.stateChange "ERROR", Ev.displayNotify "ERROR"]) ∧
    (∀ (o : Oracle) (cs : String) (w : World), cs ∉ doorExemptStates →
      (o w.readIdx).get "door_open_sensor" = true →
      (doorGlobalCheck o cs w).trace =
        w.trace ++ stopAllEvents ++ [Ev.stateChange "ERROR", Ev.displayNotify "ERROR"]) ∧
    (∀ w : World, (exceptionPath w).trace =
        w.trace ++ [Ev.setError (some "SYSTEM_ERROR"), Ev.stateChange "ERROR",
                    Ev.displayNotify "ERROR"]) ∧
    (∀ (o : Oracle) (now : Nat) (w : World), w.sm.state = "ERROR" →
      (systemTick o now w).relays = Relays.allOff) := by
  refine ⟨fun o w h => (estopGlobalCheck_true o w h).1,
          fun o cs w hcs h => (doorGlobalCheck_true o cs w hcs h).1,
          fun w => by simp [exceptionPath],
          fun o now w h => ?_⟩
  unfold systemTick
  rw [stateBranch_error o now w h]
  have h1 := branchError_relays o w
  have hse : (estopGlobalCheck o (branchError o w)).relays = Relays.allOff := by
    unfold estopGlobalCheck
    by_cases hes : (o (branchError o w).readIdx).get "emergency_stop_btn" = true
    · simp [hes]
    · simp only [Bool.not_eq_true] at hes
      simp [hes, h1]
  unfold doorGlobalCheck
  by_cases hcs : w.sm.state ∈ doorExemptStates
  · simp [hcs, hse]
  · by_cases hdo : (o (estopGlobalCheck o (branchError o w)).readIdx).get "door_open_sensor" = true
    · simp [hcs, hdo]
    · simp only [Bool.not_eq_true] at hdo
      simp [hcs, hdo, hse]

/-- C1 counterexample: from `MOVE_UP` with the top sensor inactive and the
`move_up_timeout` deadline expired, the tick transitions into `ERROR`
(setting the error code, changing state and notifying the display) while
the motor relay stays energized: the trace of the tick contains no relay
write at all, so the relays are not de-energized before (or even after)
the other side effects of this transition. -/
theorem moveup_timeout_error_without_relay_off :
    (systemTick (fun _ => inpNone) 100 wMoveUp).sm.state = "ERROR" ∧
    (systemTick (fun _ => inpNone) 100 wMoveUp).relays.motor = true ∧
    (systemTick (fun _ => inpNone) 100 wMoveUp).trace =
      [Ev.setError (some "MOVE_UP_TIMEOUT"), Ev.stateChange "ERROR",
       Ev.displayNotify "ERROR"] :=
  ⟨rfl, rfl, rfl⟩

/-- Witness for `error_transition_relay_ordering` at concrete inputs. -/
theorem error_transition_relay_ordering_witness :
    (estopGlobalCheck (fun _ => inpES) wManual).trace =
      wManual.trace ++ stopAllEvents ++ [Ev.stateChange "ERROR", Ev.displayNotify "ERROR"] ∧
    (systemTick (fun _ => inpNone) 5 wError).relays = Relays.allOff :=
  ⟨error_transition_relay_ordering.1 (fun _ => inpES) wManual rfl,
   error_transition_relay_ordering.2.2.2 (fun _ => inpNone) 5 wError rfl⟩

/-- Witness for `estop_forces_error`: emergency stop held during a
`MANUAL_UP` tick yields `ERROR` with all relays off. -/
theorem estop_forces_error_witness :
    (systemTick (fun _ => inpES) 7 wManual).sm.state = "ERROR" ∧
    (systemTick (fun _ => inpES) 7 wManual).relays = Relays.allOff :=
  estop_forces_error (fun _ => inpES) 7 wManual (fun _ => rfl)

/-! ## C3: determinism and the input-snapshot question -/

/-- Every logged read in `rs` returned the level that the fixed snapshot
`i` assigns to its input. -/
def entriesOk (i : Inputs) (rs : List (String × Bool)) : Prop :=
  ∀ pr ∈ rs, pr.2 = i.get pr.1

@[simp] lemma entriesOk_nil (i : Inputs) : entriesOk i [] := by
  intro pr h
  simp at h

@[simp] lemma entriesOk_append (i : Inputs) (rs ts : List (String × Bool)) :
    entriesOk i (rs ++ ts) ↔ entriesOk i rs ∧ entriesOk i ts := by
  simp [entriesOk, List.mem_append, or_imp, forall_and]

@[simp] lemma entriesOk_single (i : Inputs) (n : String) (v : Bool) :
    entriesOk i [(n, v)] ↔ v = i.get n := by
  simp [entriesOk]

@[simp] lemma entriesOk_cons (i : Inputs) (n : String) (v : Bool) (rs : List (String × Bool)) :
    entriesOk i ((n, v) :: rs) ↔ v = i.get n ∧ entriesOk i rs := by
  simp [entriesOk]

@[simp] lemma reads_ite (c : Prop) [Decidable c] (a b : World) :
    (if c then a else b).reads = if c then a.reads else b.reads :=
  apply_ite World.reads c a b

@[simp] lemma entriesOk_ite (i : Inputs) (c : Prop) [Decidable c]
    (rs ts : List (String × Bool)) :
    entriesOk i (if c then rs else ts) ↔ if c then entriesOk i rs else entriesOk i ts := by
  split <;> simp

lemma eo_branchInit (i : Inputs) (w : World) (hw : entriesOk i w.reads) :
    entriesOk i (branchInit w).reads := hw

lemma eo_branchStartupCheck (i : Inputs) (o : Oracle) (w : World)
    (h : ∀ k, o k = i) (hw : entriesOk i w.reads) :
    entriesOk i (branchStartupCheck o w).reads := by
  simp only [branchStartupCheck]
  split_ifs <;> simp [h, hw]

lemma eo_branchIdle (i : Inputs) (o : Oracle) (now : Nat) (w : World)
    (h : ∀ k, o k = i) (hw : entriesOk i w.reads) :
    entriesOk i (branchIdle o now w).reads := by
  simp only [branchIdle]
  split_ifs <;> simp [h, hw]

lemma eo_branchMotorWarmup (i : Inputs) (now : Nat) (w : World)
    (hw : entriesOk i w.reads) :
    entriesOk i (branchMotorWarmup now w).reads := by
  simp only [branchMotorWarmup]
  split_ifs <;> simp [hw]

lemma eo_branchMoveUp (i : Inputs) (o : Oracle) (now : Nat) (w : World)
    (h : ∀ k, o k = i) (hw : entriesOk i w.reads) :
    entriesOk i (branchMoveUp o now w).reads := by
  simp only [branchMoveUp]
  split_ifs <;> simp [h, hw]

lemma eo_branchWaitForFill (i : Inputs) (o : Oracle) (now : Nat) (w : World)
    (h : ∀ k, o k = i) (hw : entriesOk i w.reads) :
    entriesOk i (branchWaitForFill o now w).reads := by
  simp only [branchWaitForFill]
  split_ifs <;> simp [h, hw]

lemma eo_branchFastDown (i : Inputs) (o : Oracle) (now : Nat) (w : World)
    (h : ∀ k, o k = i) (hw : entriesOk i w.reads) :
    entriesOk i (branchFastDown o now w).reads := by
  simp only [branchFastDown]
  split_ifs <;> simp [h, hw]

lemma eo_branchSlowDown (i : Inputs) (o : Oracle) (now : Nat) (w : World)
    (h : ∀ k, o k = i) (hw : entriesOk i w.reads) :
    entriesOk i (branchSlowDown o now w).reads := by
  simp only [branchSlowDown]
  split_ifs <;> simp [h, hw]

lemma eo_branchPressFull (i : Inputs) (w : World) (hw : entriesOk i w.reads) :
    entriesOk i (branchPressFull w).reads := hw

lemma eo_branchManualUp (i : Inputs) (o : Oracle) (w : World)
    (h : ∀ k, o k = i) (hw : entriesOk i w.reads) :
    entriesOk i (branchManualUp o w).reads := by
  simp only [branchManualUp]
  split_ifs <;> simp [h, hw]

lemma eo_branchManualDown (i : Inputs) (o : Oracle) (w : World)
    (h : ∀ k, o k = i) (hw : entriesOk i w.reads) :
    entriesOk i (branchManualDown o w).reads := by
  simp only [branchManualDown]
  split_ifs <;> simp [h, hw]

lemma eo_branchError (i : Inputs) (o : Oracle) (w : World)
    (h : ∀ k, o k = i) (hw : entriesOk i w.reads) :
    entriesOk i (branchError o w).reads := by
  simp only [branchError]
  split_ifs <;> simp [h, hw]

lemma eo_stateBranch (i : Inputs) (o : Oracle) (now : Nat) (w : World)
    (h : ∀ k, o k = i) (hw : entriesOk i w.reads) :
    entriesOk i (stateBranch o now w).reads := by
  unfold stateBranch
  by_cases h1 : w.sm.state = "INIT"
  · rw [if_pos h1]
    exact eo_branchInit i w hw
  rw [if_neg h1]
  by_cases h2 : w.sm.state = "STARTUP_CHECK"
  · rw [if_pos h2]
    exact eo_branchStartupCheck i o w h hw
  rw [if_neg h2]
  by_cases h3 : w.sm.state = "IDLE"
  · rw [if_pos h3]
    exact eo_branchIdle i o now w h hw
  rw [if_neg h3]
  by_cases h4 : w.sm.state = "MOTOR_WARMUP"
  · rw [if_pos h4]
    exact eo_branchMotorWarmup i now w hw
  rw [if_neg h4]
  by_cases h5 : w.sm.state = "MOVE_UP"
  · rw [if_pos h5]
    exact eo_branchMoveUp i o now w h hw
  rw [if_neg h5]
  by_cases h6 : w.sm.state = "WAIT_FOR_FILL"
  · rw [if_pos h6]
    exact eo_branchWaitForFill i o now w h hw
  rw [if_neg h6]
  by_cases h7 : w.sm.state = "FAST_DOWN"
  · rw [if_pos h7]
    exact eo_branchFastDown i o now w h hw
  rw [if_neg h7]
  by_cases h8 : w.sm.state = "SLOW_DOWN_HIGH_FORCE"
  · rw [if_pos h8]
    exact eo_branchSlowDown i o now w h hw
  rw [if_neg h8]
  by_cases h9 : w.sm.state = "PRESS_FULL"
  · rw [if_pos h9]
    exact eo_branchPressFull i w hw
  rw [if_neg h9]
  by_cases h10 : w.sm.state = "MANUAL_UP"
  · rw [if_pos h10]
    exact eo_branchManualUp i o w h hw
  rw [if_neg h10]
  by_cases h11 : w.sm.state = "MANUAL_DOWN"
  · rw [if_pos h11]
    exact eo_branchManualDown i o w h hw
  rw [if_neg h11]
  by_cases h12 : w.sm.state = "ERROR"
  · rw [if_pos h12]
    exact eo_branchError i o w h hw
  rw [if_neg h12]
  exact hw

lemma eo_estopGlobalCheck (i : Inputs) (o : Oracle) (w : World)
    (h : ∀ k, o k = i) (hw : entriesOk i w.reads) :
    entriesOk i (estopGlobalCheck o w).reads := by
  simp only [estopGlobalCheck]
  split_ifs <;> simp [h, hw]

lemma eo_doorGlobalCheck (i : Inputs) (o : Oracle) (cs : String) (w : World)
    (h : ∀ k, o k = i) (hw : entriesOk i w.reads) :
    entriesOk i (doorGlobalCheck o cs w).reads := by
  simp only [doorGlobalCheck]
  split_ifs <;> simp [h, hw]

/-- C3 (corrected).  (1) The tick is deterministic in the sequence of
input levels the hardware presents: oracles that agree on every read give
identical results, so the tick is a pure function of
`(state, read sequence, timers, now)`.  (2) When the hardware levels are
constant across the tick (a genuine snapshot), every logged read returns
the snapshot value, and hence (3) no input is observed with two different
values.  The unqualified single-snapshot claim fails on the code: inputs
are re-read live at each use (see the counterexample). -/
theorem tick_deterministic_and_snapshot_consistent :
    (∀ (o₁ o₂ : Oracle) (now : Nat) (w : World), (∀ k, o₁ k = o₂ k) →
        systemTick o₁ now w = systemTick o₂ now w) ∧
    (∀ (i : Inputs) (o : Oracle) (now : Nat) (w : World), (∀ k, o k = i) →
        entriesOk i w.reads → entriesOk i (systemTick o now w).reads) ∧
    (∀ (i : Inputs) (o : Oracle) (now : Nat) (w : World) (n : String) (v₁ v₂ : Bool),
        (∀ k, o k = i) → w.reads = [] →
        (n, v₁) ∈ (systemTick o now w).reads → (n, v₂) ∈ (systemTick o now w).reads →
        v₁ = v₂) := by
  have det : ∀ (o₁ o₂ : Oracle) (now : Nat) (w : World), (∀ k, o₁ k = o₂ k) →
      systemTick o₁ now w = systemTick o₂ now w := by
    intro o₁ o₂ now w h
    have : o₁ = o₂ := funext h
    rw [this]
  have snap : ∀ (i : Inputs) (o : Oracle) (now : Nat) (w : World), (∀ k, o k = i) →
      entriesOk i w.reads → entriesOk i (systemTick o now w).reads := by
    intro i o now w h hw
    exact eo_doorGlobalCheck i o _ _ h (eo_estopGlobalCheck i o _ h (eo_stateBranch i o now w h hw))
  refine ⟨det, snap, ?_⟩
  intro i o now w n v₁ v₂ h hw h₁ h₂
  have hok : entriesOk i (systemTick o now w).reads := by
    apply snap i o now w h
    rw [hw]
    exact entriesOk_nil i
  have e₁ := hok (n, v₁) h₁
  have e₂ := hok (n, v₂) h₂
  simp only at e₁ e₂
  rw [e₁, e₂]

/-- C3 counterexample: from `MANUAL_UP` with manual-up held, an oracle
whose emergency-stop level changes between the state-arm read and the
global interlock read makes the tick read `emergency_stop_btn` twice with
different values; the resulting state (`IDLE`) differs from both constant
snapshots (estop released throughout gives `MANUAL_UP`, estop pressed
throughout gives `ERROR`), so the controller does not observe a single
consistent snapshot per tick. -/
theorem estop_read_twice_differing_within_tick :
    (systemTick oFlicker 0 wManual).reads =
      [("manual_up_btn", true), ("emergency_stop_btn", true), ("emergency_stop_btn", false)] ∧
    (systemTick oFlicker 0 wManual).sm.state = "IDLE" ∧
    (systemTick (fun _ => inpMU) 0 wManual).sm.state = "MANUAL_UP" ∧
    (systemTick (fun _ => inpMUES) 0 wManual).sm.state = "ERROR" :=
  ⟨rfl, rfl, rfl, rfl⟩

/-- Witness for `tick_deterministic_and_snapshot_consistent` at concrete
oracles and world. -/
theorem tick_deterministic_witness :
    (systemTick (fun _ => inpMU) 0 wManual =
      systemTick (fun k => if 0 < k + 1 then inpMU else inpES) 0 wManual) ∧
    (false : Bool) = false :=
  ⟨tick_deterministic_and_snapshot_consistent.1 (fun _ => inpMU)
      (fun k => if 0 < k + 1 then inpMU else inpES) 0 wManual (fun k => by simp),
   tick_deterministic_and_snapshot_consistent.2.2 inpMU (fun _ => inpMU) 0 wManual
      "emergency_stop_btn" false false (fun _ => rfl) rfl (by decide) (by decide)⟩

/-! ## C4: polled debounce suppresses the second of two close edges -/

/-- C4. For a polled edge-triggered pin with debounce window `D > 0` whose
first observed transition (away from `last_value`, at time `t1`, passing
the debounce check) is dispatched: a second transition observed less than
`D` after `t1` is suppressed — no callback fires and the last-accepted
value and trigger timestamp are left unchanged, so the next poll still
compares against the pre-transition baseline. -/
theorem poll_debounce_suppresses_second_edge (p : EPinState) (t1 t2 : Nat)
    (hD : 0 < p.debounce_ms)
    (h1 : t1 - p.last_trigger_time ≥ p.debounce_ms)
    (h12 : t1 ≤ t2) (h2 : t2 - t1 < p.debounce_ms) :
    (poll_handler { p with value := !p.last_value } t1).2 =
      (if p.last_value then p.callbacks_falling else p.callbacks_rising) ∧
    (poll_handler { (poll_handler { p with value := !p.last_value } t1).1 with
        value := p.last_value } t2).2 = [] ∧
    (poll_handler { (poll_handler { p with value := !p.last_value } t1).1 with
        value := p.last_value } t2).1.last_value = !p.last_value ∧
    (poll_handler { (poll_handler { p with value := !p.last_value } t1).1 with
        value := p.last_value } t2).1.last_trigger_time = t1 := by
  obtain ⟨pv, plv, pd, plt, pl, pcr, pcf⟩ := p
  simp only at h1 hD h2 ⊢
  have hD0 : pd ≠ 0 := Nat.pos_iff_ne_zero.mp hD
  have hno : ¬(t2 - t1 ≥ pd) := Nat.not_le.mpr h2
  cases plv <;>
    simp [poll_handler, hD0, h1, hno]

/-- A polled pin with a 50 ms window, last-accepted value `true`, one
falling-edge callback (token 9) and one rising-edge callback (token 7). -/
def pinFalling : EPinState :=
  { value := true, last_value := true, debounce_ms := 50, last_trigger_time := 0,
    latched := none, callbacks_rising := [7], callbacks_falling := [9] }

/-- Witness for `poll_debounce_suppresses_second_edge`: the spec scenario
with a 50 ms window and edges at 100 ms and 105 ms — one callback fires. -/
theorem poll_debounce_witness :
    (poll_handler { pinFalling with value := !pinFalling.last_value } 100).2 =
      (if pinFalling.last_value then pinFalling.callbacks_falling
       else pinFalling.callbacks_rising) ∧
    (poll_handler { (poll_handler { pinFalling with value := !pinFalling.last_value } 100).1 with
        value := pinFalling.last_value } 105).2 = [] ∧
    (poll_handler { (poll_handler { pinFalling with value := !pinFalling.last_value } 100).1 with
        value := pinFalling.last_value } 105).1.last_value = !pinFalling.last_value ∧
    (poll_handler { (poll_handler { pinFalling with value := !pinFalling.last_value } 100).1 with
        value := pinFalling.last_value } 105).1.last_trigger_time = 100 :=
  poll_debounce_suppresses_second_edge pinFalling 100 105 (by decide) (by decide)
    (by decide) (by decide)

/-! ## C8: set_state rejects invalid state names -/

/-- C8. An argument outside the 12-state enumeration leaves the machine
(current and previous state included) unchanged and produces no display
notification; the initial state is in the enumeration and `set_state`
preserves membership, so the current state always stays within the
enumeration. -/
theorem set_state_invalid_rejected :
    (∀ (sm : SM) (s : String), s ∉ STATES → sm.set_state s = (sm, [])) ∧
    (∀ (sm : SM) (s : String), sm.state ∈ STATES → (sm.set_state s).1.state ∈ STATES) ∧
    mkSM.state ∈ STATES := by
  refine ⟨fun sm s h => by simp [SM.set_state, h], fun sm s h => ?_, by decide⟩
  unfold SM.set_state
  by_cases hs : s ∈ STATES
  · simp [hs]
  · simp [hs, h]

/-- Witness for `set_state_invalid_rejected`: the invalid name `"BOGUS"`
changes nothing and the valid name `"IDLE"` keeps the state in the
enumeration. -/
theorem set_state_invalid_rejected_witness :
    mkSM.set_state "BOGUS" = (mkSM, []) ∧ (mkSM.set_state "IDLE").1.state ∈ STATES :=
  ⟨set_state_invalid_rejected.1 mkSM "BOGUS" (by decide),
   set_state_invalid_rejected.2.1 mkSM "IDLE" (by decide)⟩

/-! ## C9: get_input_state lookup and polarity semantics -/

lemma lookupCfg_eq_none_iff (cfg : List (String × InputEntry)) (name : String) :
    lookupCfg cfg name = none ↔ name ∉ cfg.map Prod.fst := by
  induction cfg with
  | nil => simp [lookupCfg]
  | cons hd tl ih =>
    by_cases h : hd.1 = name
    · simp [lookupCfg, h]
    · simp [lookupCfg, h, ih, Ne.symm h]

/-- C9. `get_input_state` models the `KeyError` (returns `none`) exactly
for names that are not keys of `input_config`; for a present entry it
returns `true` exactly when the raw level is 0 under pull-up
configuration, and exactly when the raw level is 1 under any other pull
configuration. -/
theorem get_input_state_spec (cfg : List (String × InputEntry)) (name : String) :
    (get_input_state cfg name = none ↔ name ∉ cfg.map Prod.fst) ∧
    (∀ e, lookupCfg cfg name = some e →
      (get_input_state cfg name = some true ↔
        (e.pull = "up" ∧ e.raw = 0) ∨ (e.pull ≠ "up" ∧ e.raw = 1))) := by
  constructor
  · rw [← lookupCfg_eq_none_iff]
    unfold get_input_state
    cases lookupCfg cfg name <;> simp
  · intro e he
    unfold get_input_state
    rw [he]
    by_cases hp : e.pull = "up"
    · simp [hp]
    · simp [hp]

/-- Witness for `get_input_state_spec` on a concrete configuration. -/
theorem get_input_state_spec_witness :
    get_input_state [("start_btn", ⟨18, "up", 0⟩)] "start_btn" = some true ∧
    get_input_state [("start_btn", ⟨18, "up", 0⟩)] "nope" = none :=
  ⟨((get_input_state_spec [("start_btn", ⟨18, "up", 0⟩)] "start_btn").2
      ⟨18, "up", 0⟩ rfl).mpr (Or.inl ⟨rfl, rfl⟩),
   (get_input_state_spec [("start_btn", ⟨18, "up", 0⟩)] "nope").1.mpr (by decide)⟩

/-! ## C6: interrupt/polled mutual exclusion -/

lemma mem_add_monitored_pin (ms : List PinCfg) (p q : PinCfg)
    (hq : q ∈ add_monitored_pin ms p) : q ∈ ms ∨ (q = p ∧ p.use_irq = false) := by
  unfold add_monitored_pin at hq
  split at hq
  · rcases List.mem_append.mp hq with h | h
    · exact Or.inl h
    · rename_i hc
      simp at h
      exact Or.inr ⟨h, hc.2⟩
  · exact Or.inl hq

lemma monitored_no_irq_step (r : Registry) (op : RegOp)
    (hr : ∀ q ∈ r.monitored, q.use_irq = false) :
    ∀ q ∈ (applyRegOp r op).monitored, q.use_irq = false := by
  intro q hq
  cases op with
  | viaAddPin name p =>
    simp only [applyRegOp, add_pin] at hq
    split at hq
    · rcases mem_add_monitored_pin r.monitored p q hq with h | h
      · exact hr q h
      · rw [h.1]
        exact h.2
    · exact hr q hq
  | viaAddMonitored p =>
    simp only [applyRegOp] at hq
    rcases mem_add_monitored_pin r.monitored p q hq with h | h
    · exact hr q h
    · rw [h.1]
      exact h.2

lemma monitored_no_irq_fold (ops : List RegOp) (r : Registry)
    (hr : ∀ q ∈ r.monitored, q.use_irq = false) :
    ∀ q ∈ (ops.foldl applyRegOp r).monitored, q.use_irq = false := by
  induction ops generalizing r with
  | nil => exact hr
  | cons op rest ih =>
    exact ih (applyRegOp r op) (monitored_no_irq_step r op hr)

/-- C6. Monitoring mode is fixed at construction and mutually exclusive:
after any sequence of registrations (through `PinGroup.add_pin` or
`BoardIO.add_monitored_pin`) every pin in the polled list has
`use_irq = false` — an interrupt-mode pin is never present — and an
edge-triggered pin constructed in polled mode has no interrupt handler
installed, so it never receives interrupt dispatch. -/
theorem interrupt_polled_mutual_exclusion :
    (∀ ops : List RegOp, ∀ q ∈ (runRegOps ops).monitored, q.use_irq = false) ∧
    (∀ i : Nat, (mkEdgeTriggerPin i false).irq_installed = false) := by
  constructor
  · intro ops
    apply monitored_no_irq_fold ops emptyRegistry
    intro q hq
    simp [emptyRegistry] at hq
  · intro i
    rfl

/-- Witness for `interrupt_polled_mutual_exclusion`: a concrete mixed
registration history in which the polled pin ends up monitored (and is
not interrupt-mode) while the interrupt pin installs its handler but
never reaches the polled list. -/
theorem interrupt_polled_mutual_exclusion_witness :
    (mkEdgeTriggerPin 14 false).use_irq = false ∧
    (mkEdgeTriggerPin 15 false).irq_installed = false :=
  ⟨interrupt_polled_mutual_exclusion.1
      [RegOp.viaAddPin "button2" (mkEdgeTriggerPin 14 false),
       RegOp.viaAddPin "button" (mkEdgeTriggerPin 15 true)]
      (mkEdgeTriggerPin 14 false) (by decide),
   interrupt_polled_mutual_exclusion.2 15⟩

/-! ## C10: add_monitored_pin is idempotent -/

lemma add_monitored_pin_mem (ms : List PinCfg) (p : PinCfg) (hp : p.use_irq = false) :
    p ∈ add_monitored_pin ms p := by
  unfold add_monitored_pin
  by_cases h : p ∈ ms
  · simp [h]
  · simp [h, hp]

lemma add_monitored_pin_mem_mono (ms : List PinCfg) (p q : PinCfg) (hq : q ∈ ms) :
    q ∈ add_monitored_pin ms p := by
  unfold add_monitored_pin
  split
  · exact List.mem_append.mpr (Or.inl hq)
  · exact hq

lemma add_monitored_pin_count_le (ms : List PinCfg) (p q : PinCfg)
    (h : ms.count q ≤ 1) : (add_monitored_pin ms p).count q ≤ 1 := by
  unfold add_monitored_pin
  split
  · rename_i hc
    rw [List.count_append]
    by_cases hqp : q = p
    · subst hqp
      have hz : ms.count q = 0 := List.count_eq_zero.mpr hc.1
      simp [hz]
    · simp [List.count_singleton', if_neg (Ne.symm hqp), Ne.symm hqp]
      omega
  · exact h

lemma fold_count_le (adds : List PinCfg) (ms : List PinCfg)
    (h : ∀ q, ms.count q ≤ 1) :
    ∀ q, (adds.foldl add_monitored_pin ms).count q ≤ 1 := by
  induction adds generalizing ms with
  | nil => exact h
  | cons p rest ih =>
    exact ih (add_monitored_pin ms p) (fun q => add_monitored_pin_count_le ms p q (h q))

lemma fold_mem_mono (adds : List PinCfg) (ms : List PinCfg) (q : PinCfg) (hq : q ∈ ms) :
    q ∈ adds.foldl add_monitored_pin ms := by
  induction adds generalizing ms with
  | nil => exact hq
  | cons p rest ih =>
    exact ih (add_monitored_pin ms p) (add_monitored_pin_mem_mono ms p q hq)

lemma fold_mem_of_added (adds : List PinCfg) (ms : List PinCfg) (p : PinCfg)
    (hp : p.use_irq = false) (h : p ∈ adds) :
    p ∈ adds.foldl add_monitored_pin ms := by
  induction adds generalizing ms with
  | nil => simp at h
  | cons a rest ih =>
    rcases List.mem_cons.mp h with h | h
    · rw [← h] at *
      exact fold_mem_mono rest (add_monitored_pin ms p) p (add_monitored_pin_mem ms p hp)
    · exact ih (add_monitored_pin ms a) h

/-- C10. `add_monitored_pin` is idempotent — re-registering the same pin
changes nothing — and registering an interrupt-mode pin leaves the list
unchanged; starting from the empty list, any registration history leaves
each pin with at most one occurrence, and each polled pin that was
registered with exactly one occurrence, so `monitor_edges` invokes its
poll handler exactly once per monitoring cycle. -/
theorem add_monitored_pin_idempotent :
    (∀ (ms : List PinCfg) (p : PinCfg),
        add_monitored_pin (add_monitored_pin ms p) p = add_monitored_pin ms p) ∧
    (∀ (ms : List PinCfg) (p : PinCfg), p.use_irq = true → add_monitored_pin ms p = ms) ∧
    (∀ (adds : List PinCfg) (q : PinCfg), (adds.foldl add_monitored_pin []).count q ≤ 1) ∧
    (∀ (adds : List PinCfg) (p : PinCfg), p ∈ adds → p.use_irq = false →
        (adds.foldl add_monitored_pin []).count p = 1) := by
  have of_mem : ∀ (ms : List PinCfg) (p : PinCfg), p ∈ ms → add_monitored_pin ms p = ms := by
    intro ms p h
    unfold add_monitored_pin
    simp [h]
  have of_irq : ∀ (ms : List PinCfg) (p : PinCfg), p.use_irq = true →
      add_monitored_pin ms p = ms := by
    intro ms p h
    unfold add_monitored_pin
    simp [h]
  refine ⟨?_, of_irq, ?_, ?_⟩
  · intro ms p
    by_cases hirq : p.use_irq = false
    · exact of_mem (add_monitored_pin ms p) p (add_monitored_pin_mem ms p hirq)
    · simp only [Bool.not_eq_false] at hirq
      rw [of_irq ms p hirq, of_irq ms p hirq]
  · intro adds q
    exact fold_count_le adds [] (by simp) q
  · intro adds p hmem hirq
    have h1 : (adds.foldl add_monitored_pin []).count p ≤ 1 :=
      fold_count_le adds [] (by simp) p
    have h2 : p ∈ adds.foldl add_monitored_pin [] :=
      fold_mem_of_added adds [] p hirq hmem
    have h3 : 0 < (adds.foldl add_monitored_pin []).count p :=
      List.count_pos_iff.mpr h2
    omega

/-- Witness for `add_monitored_pin_idempotent`: registering the polled pin
14 three times and an interrupt pin 15 once leaves exactly one occurrence
of pin 14. -/
theorem add_monitored_pin_idempotent_witness :
    add_monitored_pin (add_monitored_pin [] (mkEdgeTriggerPin 14 false)) (mkEdgeTriggerPin 14 false) =
      add_monitored_pin [] (mkEdgeTriggerPin 14 false) ∧
    add_monitored_pin [mkEdgeTriggerPin 14 false] (mkEdgeTriggerPin 15 true) =
      [mkEdgeTriggerPin 14 false] ∧
    (([mkEdgeTriggerPin 14 false, mkEdgeTriggerPin 15 true, mkEdgeTriggerPin 14 false,
       mkEdgeTriggerPin 14 false].foldl add_monitored_pin []).count (mkEdgeTriggerPin 14 false)) = 1 :=
  ⟨add_monitored_pin_idempotent.1 [] (mkEdgeTriggerPin 14 false),
   add_monitored_pin_idempotent.2.1 [mkEdgeTriggerPin 14 false] (mkEdgeTriggerPin 15 true) rfl,
   add_monitored_pin_idempotent.2.2.2
     [mkEdgeTriggerPin 14 false, mkEdgeTriggerPin 15 true, mkEdgeTriggerPin 14 false,
      mkEdgeTriggerPin 14 false] (mkEdgeTriggerPin 14 false) (by decide) rfl⟩

/-! ## C5: configuration failures -/

lemma containsName_updateCfg (cfg : List (String × InputEntry)) (n m : String)
    (e : InputEntry) : containsName (updateCfg cfg n e) m = containsName cfg m := by
  induction cfg with
  | nil => rfl
  | cons hd tl ih =>
    obtain ⟨k, v⟩ := hd
    by_cases hk : k = n
    · simp only [updateCfg, if_pos hk, containsName, lookupCfg, hk]
      by_cases hm : n = m <;> simp [hm]
    · simp only [updateCfg, if_neg hk]
      by_cases hm : k = m
      · simp [containsName, lookupCfg, hm]
      · simp only [containsName, lookupCfg, if_neg hm]
        exact ih

lemma set_input_pull_ok_names (cfg cfg' : List (String × InputEntry)) (n p : String)
    (b : Bool) (h : set_input_pull cfg n p = Except.ok (cfg', b)) :
    ∀ m, containsName cfg' m = containsName cfg m := by
  unfold set_input_pull at h
  split at h
  · injection h with h'
    injection h' with h1 h2
    rw [← h1]
    intro m
    rfl
  · split at h
    · cases h
    · injection h with h'
      injection h' with h1 h2
      rw [← h1]
      intro m
      exact containsName_updateCfg cfg n m _

lemma set_input_pull_not_error (cfg : List (String × InputEntry)) (n p : String)
    (hc : containsName cfg n = true) :
    ∃ cfg' b, set_input_pull cfg n p = Except.ok (cfg', b) := by
  unfold set_input_pull
  split
  · exact ⟨cfg, false, rfl⟩
  · unfold containsName at hc
    match hl : lookupCfg cfg n with
    | none => rw [hl] at hc; simp at hc
    | some e => exact ⟨_, true, rfl⟩

lemma applyConfigItems_ok (items : List (String × String))
    (cfg : List (String × InputEntry)) (s : Bool) :
    ∃ c b, applyConfigItems cfg s items = Except.ok (c, b) ∧ (b = true → s = true) := by
  induction items generalizing cfg s with
  | nil => exact ⟨cfg, s, rfl, fun h => h⟩
  | cons item rest ih =>
    obtain ⟨n, p⟩ := item
    by_cases hc : containsName cfg n = true
    · obtain ⟨cfg', b, hsp⟩ := set_input_pull_not_error cfg n p hc
      obtain ⟨c, b', hrec, hb'⟩ := ih cfg' (s && b)
      refine ⟨c, b', ?_, fun h => ?_⟩
      · simp only [applyConfigItems, hc, if_true, hsp]
        exact hrec
      · have := hb' h
        simp only [Bool.and_eq_true] at this
        exact this.1
    · simp only [Bool.not_eq_true] at hc
      obtain ⟨c, b', hrec, hb'⟩ := ih cfg s
      refine ⟨c, b', ?_, hb'⟩
      simp only [applyConfigItems, hc]
      simpa using hrec

lemma applyConfigItems_flag_false (items : List (String × String))
    (cfg : List (String × InputEntry)) (s : Bool) (n p : String)
    (hmem : (n, p) ∈ items) (hc : containsName cfg n = true)
    (hp : p ∉ ["up", "down"]) :
    ∃ c, applyConfigItems cfg s items = Except.ok (c, false) := by
  induction items generalizing cfg s with
  | nil => simp at hmem
  | cons item rest ih =>
    obtain ⟨m, q⟩ := item
    rcases List.mem_cons.mp hmem with hhd | htl
    · injection hhd with hn hq
      subst hn
      subst hq
      have hsp : set_input_pull cfg n p = Except.ok (cfg, false) := by
        unfold set_input_pull
        rw [if_pos hp]
      obtain ⟨c, b, hrec, hb⟩ := applyConfigItems_ok rest cfg (s && false)
      have hbf : b = false := by
        cases hbv : b
        · rfl
        · have := hb hbv
          simp at this
      refine ⟨c, ?_⟩
      simp only [applyConfigItems, hc, if_true, hsp]
      rw [hbf] at hrec
      exact hrec
    · by_cases hcm : containsName cfg m = true
      · obtain ⟨cfg', b, hsp⟩ := set_input_pull_not_error cfg m q hcm
        have hc' : containsName cfg' n = true := by
          rw [set_input_pull_ok_names cfg cfg' m q b hsp n]
          exact hc
        obtain ⟨c, hrec⟩ := ih cfg' (s && b) htl hc'
        refine ⟨c, ?_⟩
        simp only [applyConfigItems, hcm, if_true, hsp]
        exact hrec
      · simp only [Bool.not_eq_true] at hcm
        obtain ⟨c, hrec⟩ := ih cfg s htl hc
        refine ⟨c, ?_⟩
        simp only [applyConfigItems, hcm]
        simpa using hrec

lemma updateCfg_pinIds (cfg : List (String × InputEntry)) (n : String) (p : String)
    (e : InputEntry) (he : lookupCfg cfg n = some e) :
    (updateCfg cfg n { e with pull := p }).map (fun q => (q.1, q.2.pinId)) =
      cfg.map (fun q => (q.1, q.2.pinId)) := by
  induction cfg with
  | nil => rfl
  | cons hd tl ih =>
    obtain ⟨k, v⟩ := hd
    by_cases hk : k = n
    · rw [lookupCfg, if_pos hk] at he
      injection he with he
      subst he
      simp [updateCfg, hk]
    · rw [lookupCfg, if_neg hk] at he
      simp only [updateCfg, if_neg hk, List.map_cons, List.cons.injEq]
      exact ⟨trivial, ih he⟩

/-- C5 (corrected).  (1) An unrecognized polarity makes `set_input_pull`
return false without altering any input's configuration; (2) a successful
`set_input_pull` never changes which pin number any input name refers to,
only its pull; (3) the batch endpoint silently skips an input name that is
not in `input_config` — it is not reported; (4) an invalid polarity for a
known input name anywhere in the batch forces a 400 (non-success)
response, even though earlier entries may already have been applied. -/
theorem config_invalid_polarity_reported :
    (∀ (cfg : List (String × InputEntry)) (n p : String), p ∉ ["up", "down"] →
        set_input_pull cfg n p = Except.ok (cfg, false)) ∧
    (∀ (cfg cfg' : List (String × InputEntry)) (n p : String) (b : Bool),
        set_input_pull cfg n p = Except.ok (cfg', b) →
        cfg'.map (fun q => (q.1, q.2.pinId)) = cfg.map (fun q => (q.1, q.2.pinId))) ∧
    (∀ (cfg : List (String × InputEntry)) (s : Bool) (n p : String)
        (rest : List (String × String)), containsName cfg n = false →
        applyConfigItems cfg s ((n, p) :: rest) = applyConfigItems cfg s rest) ∧
    (∀ (cfg : List (String × InputEntry)) (items : List (String × String)) (n p : String),
        (n, p) ∈ items → containsName cfg n = true → p ∉ ["up", "down"] →
        (config_handler_response cfg items).2 = 400) := by
  refine ⟨?_, ?_, ?_, ?_⟩
  · intro cfg n p hp
    unfold set_input_pull
    rw [if_pos hp]
  · intro cfg cfg' n p b h
    unfold set_input_pull at h
    split at h
    · injection h with h'
      injection h' with h1 h2
      rw [← h1]
    · split at h
      · cases h
      · rename_i e he
        injection h with h'
        injection h' with h1 h2
        rw [← h1]
        exact updateCfg_pinIds cfg n p e he
  · intro cfg s n p rest hc
    simp [applyConfigItems, hc]
  · intro cfg items n p hmem hc hp
    obtain ⟨c, hitems⟩ := applyConfigItems_flag_false items cfg true n p hmem hc hp
    unfold config_handler_response
    rw [hitems]

/-- C5 counterexample: a batch containing only the unknown input name
`"bogus"` is applied with a 200 success response and no state change —
the unknown name is silently ignored, not reported as a failure. -/
theorem unknown_input_name_silently_ignored :
    config_handler_response [("start_btn", ⟨18, "up", 1⟩)] [("bogus", "up")] =
      ([("start_btn", ⟨18, "up", 1⟩)], 200) := rfl

/-- Witness for `config_invalid_polarity_reported` at a concrete
configuration and batch. -/
theorem config_invalid_polarity_reported_witness :
    set_input_pull [("start_btn", ⟨18, "up", 1⟩)] "start_btn" "sideways" =
      Except.ok ([("start_btn", ⟨18, "up", 1⟩)], false) ∧
    (config_handler_response [("start_btn", ⟨18, "up", 1⟩)]
      [("start_btn", "down"), ("start_btn", "sideways")]).2 = 400 :=
  ⟨config_invalid_polarity_reported.1 [("start_btn", ⟨18, "up", 1⟩)] "start_btn"
      "sideways" (by decide),
   config_invalid_polarity_reported.2.2.2 [("start_btn", ⟨18, "up", 1⟩)]
      [("start_btn", "down"), ("start_btn", "sideways")] "start_btn" "sideways"
      (by decide) rfl (by decide)⟩

/-! ## C7: draining the pending interrupt set -/

lemma processPin_latched_none (now : Nat) (p : EPinState) :
    (processPin now p).1.latched = none := by
  obtain ⟨pv, plv, pd, plt, pl, pcr, pcf⟩ := p
  cases pl with
  | none => rfl
  | some l =>
    simp only [processPin]
    split_ifs <;> rfl

lemma processPin_stale (now : Nat) (p : EPinState)
    (h : p.value = p.last_value) :
    (processPin now p).1.last_value = p.last_value ∧
    (processPin now p).1.last_trigger_time = p.last_trigger_time ∧
    (processPin now p).2 = [] := by
  obtain ⟨pv, plv, pd, plt, pl, pcr, pcf⟩ := p
  simp only at h
  cases pl with
  | none => exact ⟨rfl, rfl, rfl⟩
  | some l =>
    simp only [processPin]
    rw [if_neg (fun hc => hc.2 h)]
    exact ⟨rfl, rfl, rfl⟩

lemma processPin_debounce_blocks (now : Nat) (p : EPinState)
    (hd : p.debounce_ms ≠ 0) (ht : now - p.last_trigger_time < p.debounce_ms) :
    (processPin now p).2 = [] := by
  obtain ⟨pv, plv, pd, plt, pl, pcr, pcf⟩ := p
  simp only at hd ht
  cases pl with
  | none => rfl
  | some l =>
    simp only [processPin]
    by_cases hcond : pv = l ∧ pv ≠ plv
    · rw [if_pos hcond, if_neg]
      simp only [Bool.or_eq_true, decide_eq_true_eq]
      push_neg
      exact ⟨hd, by omega⟩
    · rw [if_neg hcond]

lemma drainPins_store_not_mem (now : Nat) (i : Nat) :
    ∀ (l : List Nat) (store : Nat → EPinState), i ∉ l →
      (drainPins now l store).1 i = store i := by
  intro l
  induction l with
  | nil => intro store _; rfl
  | cons j rest ih =>
    intro store h
    have hij : i ≠ j := fun e => h (e ▸ List.mem_cons_self j rest)
    have hrest : i ∉ rest := fun hm => h (List.mem_cons_of_mem j hm)
    simp only [drainPins]
    rw [ih _ hrest]
    simp [hij]

lemma drainPins_store_mem (now : Nat) (i : Nat) :
    ∀ (l : List Nat) (store : Nat → EPinState), l.Nodup → i ∈ l →
      (drainPins now l store).1 i = (processPin now (store i)).1 := by
  intro l
  induction l with
  | nil => intro store _ h; simp at h
  | cons j rest ih =>
    intro store hnd hmem
    simp only [drainPins]
    by_cases hij : i = j
    · subst hij
      have hrest : i ∉ rest := (List.nodup_cons.mp hnd).1
      rw [drainPins_store_not_mem now i rest _ hrest]
      simp
    · have hmem' : i ∈ rest := by
        rcases List.mem_cons.mp hmem with h | h
        · exact absurd h hij
        · exact h
      rw [ih _ (List.nodup_cons.mp hnd).2 hmem']
      simp [hij]

lemma filter_map_pair (i j : Nat) (xs : List Nat) :
    ((xs.map (fun c => (j, c))).filter (fun e => e.1 == i)) =
      if j = i then xs.map (fun c => (j, c)) else [] := by
  induction xs with
  | nil => simp
  | cons x rest ih =>
    by_cases h : j = i
    · simp [List.filter, h, ih]
    · have hb : (j == i) = false := beq_eq_false_iff_ne.mpr h
      simp [List.filter, ih, h, hb]

lemma drainPins_log_not_mem (now : Nat) (i : Nat) :
    ∀ (l : List Nat) (store : Nat → EPinState), i ∉ l →
      ((drainPins now l store).2.filter (fun e => e.1 == i)) = [] := by
  intro l
  induction l with
  | nil => intro store _; rfl
  | cons j rest ih =>
    intro store h
    have hij : i ≠ j := fun e => h (e ▸ List.mem_cons_self j rest)
    have hrest : i ∉ rest := fun hm => h (List.mem_cons_of_mem j hm)
    simp only [drainPins]
    rw [List.filter_append, filter_map_pair, if_neg (Ne.symm hij), ih _ hrest]
    rfl

lemma drainPins_log_mem (now : Nat) (i : Nat) :
    ∀ (l : List Nat) (store : Nat → EPinState), l.Nodup → i ∈ l →
      ((drainPins now l store).2.filter (fun e => e.1 == i)) =
        (processPin now (store i)).2.map (fun c => (i, c)) := by
  intro l
  induction l with
  | nil => intro store _ h; simp at h
  | cons j rest ih =>
    intro store hnd hmem
    simp only [drainPins]
    rw [List.filter_append, filter_map_pair]
    by_cases hij : i = j
    · subst hij
      have hrest : i ∉ rest := (List.nodup_cons.mp hnd).1
      rw [if_pos rfl, drainPins_log_not_mem now i rest _ hrest]
      simp
    · have hmem' : i ∈ rest := by
        rcases List.mem_cons.mp hmem with h | h
        · exact absurd h hij
        · exact h
      rw [if_neg (Ne.symm hij), ih _ (List.nodup_cons.mp hnd).2 hmem']
      simp [hij]

/-- C7. One call to `process_pending_callbacks`: (1) the pending set is
taken and cleared whole; (2) each pending pin's state is the result of
exactly one `processPin` application (at-most-once processing, duplicates
in the pending set collapse); (3) every pending pin ends with an empty
latch; (4) stale-edge rejection — a pending pin whose re-read value does
not differ from its last-accepted value fires no callback and keeps its
last-accepted value and trigger time; (5) the debounce comparison uses the
time of this drain: a pin whose window has not elapsed relative to `now`
fires no callback. -/
theorem drain_pending_spec (now : Nat) (store : Nat → EPinState) (pending : List Nat) :
    (process_pending_callbacks now store pending).2.1 = [] ∧
    (∀ i ∈ pending, (process_pending_callbacks now store pending).1 i =
        (processPin now (store i)).1) ∧
    (∀ i ∈ pending, ((process_pending_callbacks now store pending).1 i).latched = none) ∧
    (∀ i ∈ pending, (store i).value = (store i).last_value →
        ((process_pending_callbacks now store pending).2.2.filter (fun e => e.1 == i)) = [] ∧
        ((process_pending_callbacks now store pending).1 i).last_value = (store i).last_value ∧
        ((process_pending_callbacks now store pending).1 i).last_trigger_time =
          (store i).last_trigger_time) ∧
    (∀ i ∈ pending, (store i).debounce_ms ≠ 0 →
        now - (store i).last_trigger_time < (store i).debounce_ms →
        ((process_pending_callbacks now store pending).2.2.filter (fun e => e.1 == i)) = []) := by
  have hstore : ∀ i ∈ pending, (process_pending_callbacks now store pending).1 i =
      (processPin now (store i)).1 := by
    intro i hi
    exact drainPins_store_mem now i pending.dedup store (List.nodup_dedup pending)
      (List.mem_dedup.mpr hi)
  have hlog : ∀ i ∈ pending, ((process_pending_callbacks now store pending).2.2.filter
      (fun e => e.1 == i)) = (processPin now (store i)).2.map (fun c => (i, c)) := by
    intro i hi
    exact drainPins_log_mem now i pending.dedup store (List.nodup_dedup pending)
      (List.mem_dedup.mpr hi)
  refine ⟨rfl, hstore, ?_, ?_, ?_⟩
  · intro i hi
    rw [hstore i hi]
    exact processPin_latched_none now (store i)
  · intro i hi hv
    obtain ⟨h1, h2, h3⟩ := processPin_stale now (store i) hv
    refine ⟨?_, ?_, ?_⟩
    · rw [hlog i hi, h3]
      rfl
    · rw [hstore i hi, h1]
    · rw [hstore i hi, h2]
  · intro i hi hd ht
    rw [hlog i hi, processPin_debounce_blocks now (store i) hd ht]
    rfl

/-- A pin with a pending stale latch: the hardware level returned to the
last-accepted value before the drain ran. -/
def pinStale : EPinState :=
  { value := true, last_value := true, debounce_ms := 50, last_trigger_time := 0,
    latched := some true, callbacks_rising := [7], callbacks_falling := [9] }

/-- Witness for `drain_pending_spec`: draining the duplicated pending set
`[3, 3]` over a store holding a stale-latched pin clears the pending set,
clears the latch and fires nothing. -/
theorem drain_pending_spec_witness :
    (process_pending_callbacks 100 (fun _ => pinStale) [3, 3]).2.1 = [] ∧
    ((process_pending_callbacks 100 (fun _ => pinStale) [3, 3]).1 3).latched = none ∧
    ((process_pending_callbacks 100 (fun _ => pinStale) [3, 3]).2.2.filter
      (fun e => e.1 == 3)) = [] :=
  ⟨(drain_pending_spec 100 (fun _ => pinStale) [3, 3]).1,
   (drain_pending_spec 100 (fun _ => pinStale) [3, 3]).2.2.1 3 (by decide),
   ((drain_pending_spec 100 (fun _ => pinStale) [3, 3]).2.2.2.1 3 (by decide) rfl).1⟩
